import Mathlib

/-!
Shallow embedding of the GryazBot poll engine (src/bot.py) over its sqlite data
model, together with theorems settling the specification claims about poll
creation, voting, quorum, cooldown, expiration and the seed-score import.

Conventions of the embedding:
* sqlite tables become Lean lists of row structures; row order models insertion
  order, `find?` models `fetchone` on a key lookup, `map` over a key condition
  models `UPDATE ... WHERE`.
* machine integers (chat ids, user ids, unix timestamps, scores) are `Int`;
  row counts and poll ids are `Nat`.
* a `with closing(db()) as conn, conn:` block in bot.py commits on exit; a
  `with closing(db()) as conn:` block (no second `conn` context manager) never
  commits, and python sqlite3 rolls the implicit transaction back when the
  connection closes.  Two write sites in bot.py use the second form (the
  denormalised tally UPDATE at bot.py:362-368 and the sweep UPDATE at
  bot.py:424-434), so their writes do not reach the durable database; the
  embedding reflects the committed state.
-/

namespace GryazBot

/-- Vote choice, the CHECK(vote IN (plus, minus)) column of poll_votes (bot.py:121). -/
inductive Choice
  | plus
  | minus
deriving DecidableEq

/-- Chat user as the handlers see it: id, username (empty string when the
platform reports none, as in `user.username or ""`), first_name, bot flag. -/
structure User where
  id : Int
  username : String
  firstName : String
  isBot : Bool
deriving DecidableEq

/-- Row of the members table (bot.py:90-97). -/
structure MemberRow where
  chatId : Int
  userId : Int
  username : String
  firstName : String
  isBot : Bool
deriving DecidableEq

/-- Row of the scores table (bot.py:99-104). -/
structure ScoreRow where
  chatId : Int
  userId : Int
  score : Int
deriving DecidableEq

/-- Row of the polls table (bot.py:106-116).  `closed` and `expired` are the
two flag columns; the spec status `open` is closed=0, `expired` is closed=1
and expired=1, and a passed or cancelled poll is closed=1, expired=0. -/
structure PollRow where
  id : Nat
  chatId : Int
  messageId : Int
  targetUserId : Int
  plusCount : Nat
  minusCount : Nat
  closed : Bool
  expired : Bool
  createdAt : Int
deriving DecidableEq

/-- Row of the poll_votes table (bot.py:118-124), PRIMARY KEY(poll_id, voter_user_id). -/
structure VoteRow where
  pollId : Nat
  voterUserId : Int
  vote : Choice
deriving DecidableEq

/-- The committed sqlite database.  `nextPollId` models the AUTOINCREMENT
counter of polls.id, which never hands out a previously used id. -/
structure DB where
  members : List MemberRow
  scores : List ScoreRow
  polls : List PollRow
  votes : List VoteRow
  nextPollId : Nat
deriving DecidableEq

/-- Database of a fresh deployment: empty tables, first poll id is 1. -/
def emptyDB : DB := ⟨[], [], [], [], 1⟩

/-- Environment configuration (bot.py:34-37).  `initScores` is the mapping
produced by parse_init_scores, taken here as an association list with distinct
keys (a python dict). -/
structure Config where
  targetCooldown : Int
  voteTimeout : Int
  initScores : List (String × Int)
deriving DecidableEq

/-- Lowercasing of a character sequence; Char.toLower is the ASCII core of
python str.lower, which suffices for the ASCII seed keys considered here. -/
def lowerList (l : List Char) : List Char := l.map Char.toLower

/-- Whitespace stripping from both ends, python str.strip on its ASCII core. -/
def trimList (l : List Char) : List Char :=
  ((l.dropWhile Char.isWhitespace).reverse.dropWhile Char.isWhitespace).reverse

/-- Key normalisation used by the seed import: lstrip("@").strip().lower()
(bot.py:49, bot.py:72, bot.py:153), written over the character list so that
it evaluates inside the kernel. -/
def normKey (s : String) : String :=
  String.mk (lowerList (trimList (s.data.dropWhile (fun c => c = '@'))))

/-- Normalisation of first_name keys: strip().lower(), no @-stripping (bot.py:154). -/
def normName (s : String) : String :=
  String.mk (lowerList (trimList s.data))

/-- Dictionary lookup in the INIT_SCORES mapping. -/
def lookupInit (m : List (String × Int)) (k : String) : Option Int :=
  (m.find? (fun kv => kv.fst == k)).map Prod.snd

/-- Embedding of upsert_member (bot.py:128-140): INSERT OR on conflict of the
(chat_id, user_id) key update username, first_name and is_bot. -/
def upsert_member (s : DB) (chatId : Int) (u : User) : DB :=
  if ∃ m ∈ s.members, m.chatId = chatId ∧ m.userId = u.id then
    { s with members := s.members.map (fun m =>
        if m.chatId = chatId ∧ m.userId = u.id then
          { m with username := u.username, firstName := u.firstName, isBot := u.isBot }
        else m) }
  else
    { s with members := s.members ++ [⟨chatId, u.id, u.username, u.firstName, u.isBot⟩] }

/-- Embedding of non_bot_member_count (bot.py:142-148): COUNT of members rows
of the chat with is_bot=0. -/
def non_bot_member_count (s : DB) (chatId : Int) : Nat :=
  (s.members.filter (fun m => m.chatId == chatId && !m.isBot)).length

/-- Seed write of maybe_apply_init_score (bot.py:158-166): INSERT the score or
on conflict overwrite it with the seeded value (score=excluded.score). -/
def setScore (s : DB) (chatId uid pts : Int) : DB :=
  if ∃ r ∈ s.scores, r.chatId = chatId ∧ r.userId = uid then
    { s with scores := s.scores.map (fun r =>
        if r.chatId = chatId ∧ r.userId = uid then { r with score := pts } else r) }
  else
    { s with scores := s.scores ++ [⟨chatId, uid, pts⟩] }

/-- Score write of a passed poll (bot.py:374-378): INSERT score 1 or on
conflict score=score+1. -/
def incrementScore (s : DB) (chatId uid : Int) : DB :=
  if ∃ r ∈ s.scores, r.chatId = chatId ∧ r.userId = uid then
    { s with scores := s.scores.map (fun r =>
        if r.chatId = chatId ∧ r.userId = uid then { r with score := r.score + 1 } else r) }
  else
    { s with scores := s.scores ++ [⟨chatId, uid, 1⟩] }

/-- Embedding of maybe_apply_init_score (bot.py:150-169).  It is attempted on
every observation of the user with no first-time marker: whenever the
normalised username or first name is a key of the mapping, the scores row is
overwritten with the seeded value.  bot.py iterates the python set
containing the two keys, whose order is unspecified when both keys are
distinct entries of the mapping; the embedding tries the username key first,
which agrees with the source whenever at most one of the two keys matches. -/
def maybe_apply_init_score (cfg : Config) (s : DB) (chatId : Int) (u : User) : DB :=
  if cfg.initScores.isEmpty then s
  else
    match (if normKey u.username = "" then none else lookupInit cfg.initScores (normKey u.username)) with
    | some pts => setScore s chatId u.id pts
    | none =>
      match (if normName u.firstName = "" then none else lookupInit cfg.initScores (normName u.firstName)) with
      | some pts => setScore s chatId u.id pts
      | none => s

/-- The pairing upsert_member + maybe_apply_init_score performed at every
observation point (bot.py:202-206, 403-408, 414-415). -/
def touch (cfg : Config) (s : DB) (chatId : Int) (u : User) : DB :=
  maybe_apply_init_score cfg (upsert_member s chatId u) chatId u

/-- Observation side effects of start_vote_for_target before any validation
(bot.py:202-206): touch the nominator when present, then the target. -/
def preTouch (cfg : Config) (s : DB) (chatId : Int) (nominator : Option User) (target : User) : DB :=
  let s1 := match nominator with
    | some n => touch cfg s chatId n
    | none => s
  touch cfg s1 chatId target

/-- COALESCE(score, 0) read of a scores row, as /stats renders it (bot.py:279). -/
def getScore (s : DB) (chatId uid : Int) : Int :=
  match s.scores.find? (fun r => r.chatId == chatId && r.userId == uid) with
  | some r => r.score
  | none => 0

/-- Tally of poll_votes rows of one poll and one choice, the
SUM(vote=...) read at bot.py:363-367. -/
def countVotes (votes : List VoteRow) (pid : Nat) (c : Choice) : Nat :=
  (votes.filter (fun v => v.pollId == pid && v.vote == c)).length

/-- Quorum threshold max(1, math.ceil(count / 2)) (bot.py:249, bot.py:370).
For a natural count, math.ceil(count / 2) is (count + 1) / 2 in integer
arithmetic. -/
def quorum (n : Nat) : Nat := max 1 ((n + 1) / 2)

/-- Most recent poll of the (chat, target) pair, the
ORDER BY created_at DESC LIMIT 1 query at bot.py:220-223.  Ties on created_at
are resolved in favour of the earlier row; sqlite leaves the order of ties
unspecified and no theorem below depends on a tie. -/
def lastPollFor (s : DB) (chatId target : Int) : Option PollRow :=
  s.polls.foldl (fun acc p =>
    if p.chatId = chatId ∧ p.targetUserId = target then
      match acc with
      | none => some p
      | some q => if q.createdAt < p.createdAt then some p else some q
    else acc) none

/-- Outcome of start_vote_for_target, as surfaced to the chat. -/
inductive StartResult
  | alreadyOpen
  | cooldown (remaining : Int)
  | started (pollId : Nat) (threshold : Nat)
deriving DecidableEq

/-- Accepted-nomination tail of start_vote_for_target (bot.py:235-257): the
poll row is inserted with message_id 0, the threshold is computed from the
current roster, the ballot message is sent, and the row is updated to the
returned message id.  Both poll writes commit. -/
def insert_poll (now : Int) (s2 : DB) (chatId : Int) (target : User)
    (sentMessageId : Int) : StartResult × DB :=
  let pid := s2.nextPollId
  let s3 : DB := { s2 with
    polls := s2.polls ++ [⟨pid, chatId, 0, target.id, 0, 0, false, false, now⟩],
    nextPollId := pid + 1 }
  let threshold := quorum (non_bot_member_count s3 chatId)
  let s4 : DB := { s3 with polls := s3.polls.map (fun p =>
    if p.id = pid then { p with messageId := sentMessageId } else p) }
  (.started pid threshold, s4)

/-- Embedding of start_vote_for_target (bot.py:201-257).  `sentMessageId` is
the id of the ballot message the platform returns.  The rejection paths run
after the preTouch observation writes, which have already committed. -/
def start_vote_for_target (cfg : Config) (now : Int) (s : DB) (chatId : Int)
    (nominator : Option User) (target : User) (sentMessageId : Int) : StartResult × DB :=
  let s2 := preTouch cfg s chatId nominator target
  if ∃ p ∈ s2.polls, p.chatId = chatId ∧ p.targetUserId = target.id ∧ p.closed = false then
    (.alreadyOpen, s2)
  else
    match lastPollFor s2 chatId target.id with
    | some q =>
      if q.expired = false ∧ now - q.createdAt < cfg.targetCooldown then
        (.cooldown (cfg.targetCooldown - (now - q.createdAt)), s2)
      else insert_poll now s2 chatId target sentMessageId
    | none => insert_poll now s2 chatId target sentMessageId

/-- Outcome of on_vote, as surfaced to the voter and the chat.  The three
tallied outcomes carry the recomputed plus and minus counts and the threshold
the handler displays. -/
inductive VoteResult
  | unknownPoll
  | alreadyClosed
  | timedOut
  | duplicateVote
  | passed (plusCount minusCount threshold : Nat)
  | cancelled (plusCount minusCount threshold : Nat)
  | inProgress (plusCount minusCount threshold : Nat)
deriving DecidableEq

/-- Tally and threshold carried by a tallied outcome. -/
def resultTally : VoteResult → Option (Nat × Nat × Nat)
  | .passed p m t => some (p, m, t)
  | .cancelled p m t => some (p, m, t)
  | .inProgress p m t => some (p, m, t)
  | _ => none

/-- Threshold carried by a tallied outcome. -/
def resultThreshold (r : VoteResult) : Option Nat :=
  (resultTally r).map (fun x => x.2.2)

/-- UPDATE polls SET closed=1 WHERE id=? (bot.py:373, 385). -/
def closePolls (polls : List PollRow) (pid : Nat) : List PollRow :=
  polls.map (fun p => if p.id = pid then { p with closed := true } else p)

/-- UPDATE polls SET closed=1, expired=1 WHERE id=? (bot.py:347). -/
def expirePollRow (polls : List PollRow) (pid : Nat) : List PollRow :=
  polls.map (fun p => if p.id = pid then { p with closed := true, expired := true } else p)

/-- Embedding of on_vote (bot.py:326-398).  The callback carries the poll id
and the choice; the chat of the ballot message is the chat of the poll.  The
vote insert (bot.py:356-357), the lazy-expiration UPDATE (bot.py:346-347) and
the close / score writes (bot.py:372-378, 384-385) all commit.  The
denormalised plus_count/minus_count UPDATE at bot.py:362-368 runs on a
connection opened without the transaction context manager and is rolled back
on close, so the stored count columns are not changed; the resolution itself
uses the in-memory tally read back from poll_votes, which the embedding
recomputes the same way.

tallyAndResolve is the accepted-vote tail (bot.py:354-398): insert the vote,
recompute the tally from the vote rows, recompute the threshold from the
current roster, then check plus first and minus second. -/
def tallyAndResolve (s : DB) (pollId : Nat) (voter : Int)
    (choice : Choice) (chatId targetId : Int) : VoteResult × DB :=
  let votes2 := s.votes ++ [⟨pollId, voter, choice⟩]
  let s2 : DB := { s with votes := votes2 }
  let plus := countVotes votes2 pollId .plus
  let minus := countVotes votes2 pollId .minus
  let threshold := quorum (non_bot_member_count s2 chatId)
  if threshold ≤ plus then
    (.passed plus minus threshold,
      incrementScore { s2 with polls := closePolls s2.polls pollId } chatId targetId)
  else if threshold ≤ minus then
    (.cancelled plus minus threshold, { s2 with polls := closePolls s2.polls pollId })
  else
    (.inProgress plus minus threshold, s2)

/-- Guard chain of on_vote (bot.py:338-359): look the poll up, ignore it when
already closed, lazily expire it when timed out, reject a duplicate voter,
otherwise run the accepted-vote tail. -/
def on_vote (cfg : Config) (now : Int) (s : DB) (pollId : Nat) (voter : Int)
    (choice : Choice) : VoteResult × DB :=
  match s.polls.find? (fun p => p.id == pollId) with
  | none => (.unknownPoll, s)
  | some poll =>
    if poll.closed then (.alreadyClosed, s)
    else if 0 < cfg.voteTimeout ∧ cfg.voteTimeout ≤ now - poll.createdAt then
      (.timedOut, { s with polls := expirePollRow s.polls pollId })
    else if ∃ v ∈ s.votes, v.pollId = pollId ∧ v.voterUserId = voter then
      (.duplicateVote, s)
    else
      tallyAndResolve s pollId voter choice poll.chatId poll.targetUserId

/-- Effect the sweep batch UPDATE (bot.py:431-434) would have on the database
if it were committed: every open poll whose age reached the timeout gets
closed=1, expired=1 in one statement. -/
def expireSweepUpdate (cfg : Config) (now : Int) (s : DB) : DB :=
  { s with polls := s.polls.map (fun p =>
      if p.closed = false ∧ cfg.voteTimeout ≤ now - p.createdAt then
        { p with closed := true, expired := true }
      else p) }

/-- Committed effect of expire_polls (bot.py:418-446).  The function returns
early when VOTE_TIMEOUT is disabled or no open poll has reached the timeout;
otherwise it SELECTs the stale open rows, issues the batch UPDATE and then
attempts a notification edit for each selected row, swallowing failures.
The connection is opened at bot.py:424 as `with closing(db()) as conn:`,
without the second `conn` context manager every other write site uses, and
nothing calls commit: python sqlite3 opens the implicit transaction at the
UPDATE and rolls it back when the connection closes, so the committed
database is unchanged.  The first component is the list of rows selected for
notification, the second the committed database. -/
def expire_polls (cfg : Config) (now : Int) (s : DB) : List PollRow × DB :=
  if cfg.voteTimeout ≤ 0 then ([], s)
  else if (s.polls.filter (fun p =>
      decide (p.closed = false ∧ cfg.voteTimeout ≤ now - p.createdAt))).isEmpty then ([], s)
  else (s.polls.filter (fun p =>
      decide (p.closed = false ∧ cfg.voteTimeout ≤ now - p.createdAt)), s)

/-- Embedding of on_message (bot.py:400-408) in a group chat: touch the sender
and the replied-to user when present. -/
def on_message (cfg : Config) (s : DB) (chatId : Int) (sender replyTo : Option User) : DB :=
  let s1 := match sender with
    | some u => touch cfg s chatId u
    | none => s
  match replyTo with
  | some u => touch cfg s1 chatId u
  | none => s1

/-- One inbound trigger acting on the shared state: a nomination, a ballot
press, a sweeper tick, a plain message, or a chat-member update (bot.py:458-470). -/
inductive Op
  | startVote (chatId : Int) (nominator : Option User) (target : User) (sentMessageId : Int)
  | castVote (pollId : Nat) (voter : Int) (choice : Choice)
  | sweep
  | message (chatId : Int) (sender replyTo : Option User)
  | chatMember (chatId : Int) (u : User)

/-- Committed database after one trigger. -/
def applyOp (cfg : Config) (now : Int) (s : DB) : Op → DB
  | .startVote chatId nom target mid => (start_vote_for_target cfg now s chatId nom target mid).2
  | .castVote pid voter choice => (on_vote cfg now s pid voter choice).2
  | .sweep => (expire_polls cfg now s).2
  | .message chatId sender replyTo => on_message cfg s chatId sender replyTo
  | .chatMember chatId u => touch cfg s chatId u

/-- Number of poll_votes rows of one (poll, voter) key. -/
def pairVoteCount (s : DB) (pid : Nat) (voter : Int) : Nat :=
  (s.votes.filter (fun v => v.pollId == pid && v.voterUserId == voter)).length

/-! Helper lemmas about which tables each write path leaves untouched, and
about key lookups surviving keyed updates. -/

theorem upsert_member_polls (s : DB) (c : Int) (u : User) :
    (upsert_member s c u).polls = s.polls := by
  unfold upsert_member; split <;> rfl

theorem upsert_member_votes (s : DB) (c : Int) (u : User) :
    (upsert_member s c u).votes = s.votes := by
  unfold upsert_member; split <;> rfl

theorem upsert_member_nextPollId (s : DB) (c : Int) (u : User) :
    (upsert_member s c u).nextPollId = s.nextPollId := by
  unfold upsert_member; split <;> rfl

theorem setScore_polls (s : DB) (c uid pts : Int) :
    (setScore s c uid pts).polls = s.polls := by
  unfold setScore; split <;> rfl

theorem setScore_votes (s : DB) (c uid pts : Int) :
    (setScore s c uid pts).votes = s.votes := by
  unfold setScore; split <;> rfl

theorem setScore_nextPollId (s : DB) (c uid pts : Int) :
    (setScore s c uid pts).nextPollId = s.nextPollId := by
  unfold setScore; split <;> rfl

theorem maybe_apply_init_score_polls (cfg : Config) (s : DB) (c : Int) (u : User) :
    (maybe_apply_init_score cfg s c u).polls = s.polls := by
  unfold maybe_apply_init_score
  split
  · rfl
  · split
    · exact setScore_polls _ _ _ _
    · split
      · exact setScore_polls _ _ _ _
      · rfl

theorem maybe_apply_init_score_votes (cfg : Config) (s : DB) (c : Int) (u : User) :
    (maybe_apply_init_score cfg s c u).votes = s.votes := by
  unfold maybe_apply_init_score
  split
  · rfl
  · split
    · exact setScore_votes _ _ _ _
    · split
      · exact setScore_votes _ _ _ _
      · rfl

theorem maybe_apply_init_score_nextPollId (cfg : Config) (s : DB) (c : Int) (u : User) :
    (maybe_apply_init_score cfg s c u).nextPollId = s.nextPollId := by
  unfold maybe_apply_init_score
  split
  · rfl
  · split
    · exact setScore_nextPollId _ _ _ _
    · split
      · exact setScore_nextPollId _ _ _ _
      · rfl

theorem touch_polls (cfg : Config) (s : DB) (c : Int) (u : User) :
    (touch cfg s c u).polls = s.polls := by
  unfold touch; rw [maybe_apply_init_score_polls, upsert_member_polls]

theorem touch_votes (cfg : Config) (s : DB) (c : Int) (u : User) :
    (touch cfg s c u).votes = s.votes := by
  unfold touch; rw [maybe_apply_init_score_votes, upsert_member_votes]

theorem touch_nextPollId (cfg : Config) (s : DB) (c : Int) (u : User) :
    (touch cfg s c u).nextPollId = s.nextPollId := by
  unfold touch; rw [maybe_apply_init_score_nextPollId, upsert_member_nextPollId]

theorem preTouch_polls (cfg : Config) (s : DB) (c : Int) (nom : Option User) (t : User) :
    (preTouch cfg s c nom t).polls = s.polls := by
  unfold preTouch
  cases nom with
  | none => exact touch_polls _ _ _ _
  | some n => rw [touch_polls, touch_polls]

theorem preTouch_votes (cfg : Config) (s : DB) (c : Int) (nom : Option User) (t : User) :
    (preTouch cfg s c nom t).votes = s.votes := by
  unfold preTouch
  cases nom with
  | none => exact touch_votes _ _ _ _
  | some n => rw [touch_votes, touch_votes]

theorem preTouch_nextPollId (cfg : Config) (s : DB) (c : Int) (nom : Option User) (t : User) :
    (preTouch cfg s c nom t).nextPollId = s.nextPollId := by
  unfold preTouch
  cases nom with
  | none => exact touch_nextPollId _ _ _ _
  | some n => rw [touch_nextPollId, touch_nextPollId]

theorem on_message_polls (cfg : Config) (s : DB) (c : Int) (sd rt : Option User) :
    (on_message cfg s c sd rt).polls = s.polls := by
  unfold on_message
  cases sd <;> cases rt <;> simp only [touch_polls]

theorem on_message_votes (cfg : Config) (s : DB) (c : Int) (sd rt : Option User) :
    (on_message cfg s c sd rt).votes = s.votes := by
  unfold on_message
  cases sd <;> cases rt <;> simp only [touch_votes]

theorem incrementScore_polls (s : DB) (c uid : Int) :
    (incrementScore s c uid).polls = s.polls := by
  unfold incrementScore; split <;> rfl

theorem incrementScore_votes (s : DB) (c uid : Int) :
    (incrementScore s c uid).votes = s.votes := by
  unfold incrementScore; split <;> rfl

theorem expire_polls_state (cfg : Config) (now : Int) (s : DB) :
    (expire_polls cfg now s).2 = s := by
  unfold expire_polls; split
  · rfl
  · split <;> rfl

theorem lastPollFor_congr (s1 s2 : DB) (c t : Int) (h : s1.polls = s2.polls) :
    lastPollFor s1 c t = lastPollFor s2 c t := by
  unfold lastPollFor; rw [h]

theorem find?_map_of_pred {α : Type} (f : α → α) (p : α → Bool)
    (hp : ∀ a, p (f a) = p a) (l : List α) :
    (l.map f).find? p = (l.find? p).map f := by
  rw [List.find?_map, show p ∘ f = p from funext hp]

theorem find?_id_after_update (l : List PollRow) (pid pid2 : Nat) (g : PollRow → PollRow)
    (hid : ∀ q, (g q).id = q.id) (row : PollRow)
    (h : l.find? (fun p => p.id == pid) = some row) (hne : pid ≠ pid2) :
    (l.map (fun p => if p.id = pid2 then g p else p)).find? (fun p => p.id == pid)
      = some row := by
  have hp : ∀ a : PollRow,
      ((fun p : PollRow => p.id == pid) (if a.id = pid2 then g a else a))
        = ((fun p : PollRow => p.id == pid) a) := by
    intro a; by_cases ha : a.id = pid2 <;> simp [ha, hid]
  rw [find?_map_of_pred _ _ hp, h]
  have hrow : row.id = pid := by simpa using List.find?_some h
  simp [hrow, hne]

theorem on_vote_none_eq (cfg : Config) (now : Int) (s : DB) (pid : Nat) (voter : Int)
    (choice : Choice) (hfind : s.polls.find? (fun p => p.id == pid) = none) :
    on_vote cfg now s pid voter choice = (.unknownPoll, s) := by
  unfold on_vote; rw [hfind]

theorem on_vote_closed_eq (cfg : Config) (now : Int) (s : DB) (pid : Nat) (voter : Int)
    (choice : Choice) (row : PollRow)
    (hfind : s.polls.find? (fun p => p.id == pid) = some row)
    (hclosed : row.closed = true) :
    on_vote cfg now s pid voter choice = (.alreadyClosed, s) := by
  unfold on_vote; rw [hfind]; simp [hclosed]

theorem on_vote_timeout_eq (cfg : Config) (now : Int) (s : DB) (pid : Nat) (voter : Int)
    (choice : Choice) (row : PollRow)
    (hfind : s.polls.find? (fun p => p.id == pid) = some row)
    (hopen : row.closed = false)
    (ht : 0 < cfg.voteTimeout ∧ cfg.voteTimeout ≤ now - row.createdAt) :
    on_vote cfg now s pid voter choice
      = (.timedOut, { s with polls := expirePollRow s.polls pid }) := by
  unfold on_vote; rw [hfind]; simp [hopen, ht]

theorem on_vote_dup_eq (cfg : Config) (now : Int) (s : DB) (pid : Nat) (voter : Int)
    (choice : Choice) (row : PollRow)
    (hfind : s.polls.find? (fun p => p.id == pid) = some row)
    (hopen : row.closed = false)
    (hlive : ¬(0 < cfg.voteTimeout ∧ cfg.voteTimeout ≤ now - row.createdAt))
    (hdup : ∃ v ∈ s.votes, v.pollId = pid ∧ v.voterUserId = voter) :
    on_vote cfg now s pid voter choice = (.duplicateVote, s) := by
  unfold on_vote; rw [hfind]; simp [hopen, hlive, hdup]

theorem on_vote_accepted_eq (cfg : Config) (now : Int) (s : DB) (pid : Nat) (voter : Int)
    (choice : Choice) (row : PollRow)
    (hfind : s.polls.find? (fun p => p.id == pid) = some row)
    (hopen : row.closed = false)
    (hlive : ¬(0 < cfg.voteTimeout ∧ cfg.voteTimeout ≤ now - row.createdAt))
    (hfresh : ¬ ∃ v ∈ s.votes, v.pollId = pid ∧ v.voterUserId = voter) :
    on_vote cfg now s pid voter choice
      = tallyAndResolve s pid voter choice row.chatId row.targetUserId := by
  unfold on_vote; rw [hfind]; simp [hopen, hlive, hfresh]

theorem getScore_incrementScore (s : DB) (c uid : Int) :
    getScore (incrementScore s c uid) c uid = getScore s c uid + 1 := by
  by_cases hex : ∃ r ∈ s.scores, r.chatId = c ∧ r.userId = uid
  · have hstep : incrementScore s c uid = { s with scores := s.scores.map (fun r =>
        if r.chatId = c ∧ r.userId = uid then { r with score := r.score + 1 } else r) } := by
      unfold incrementScore; rw [if_pos hex]
    rw [hstep]
    unfold getScore
    have hp : ∀ r : ScoreRow,
        ((fun r : ScoreRow => r.chatId == c && r.userId == uid)
          (if r.chatId = c ∧ r.userId = uid then { r with score := r.score + 1 } else r))
          = ((fun r : ScoreRow => r.chatId == c && r.userId == uid) r) := by
      intro r; by_cases hr : r.chatId = c ∧ r.userId = uid <;> simp [hr]
    show (match (s.scores.map (fun r =>
        if r.chatId = c ∧ r.userId = uid then { r with score := r.score + 1 } else r)).find?
          (fun r => r.chatId == c && r.userId == uid) with
      | some r => r.score
      | none => 0) = _
    rw [find?_map_of_pred _ _ hp]
    rcases hex with ⟨r0, hr0mem, hr0⟩
    have hsome : (s.scores.find? (fun r => r.chatId == c && r.userId == uid)).isSome := by
      rw [List.find?_isSome]
      exact ⟨r0, hr0mem, by simp [hr0.1, hr0.2]⟩
    rcases Option.isSome_iff_exists.mp hsome with ⟨r, hr⟩
    rw [hr]
    have hmatch : r.chatId = c ∧ r.userId = uid := by
      have := List.find?_some hr
      simp only [Bool.and_eq_true, beq_iff_eq] at this
      exact this
    simp [hmatch]
  · have hstep : incrementScore s c uid
        = { s with scores := s.scores ++ [⟨c, uid, 1⟩] } := by
      unfold incrementScore; rw [if_neg hex]
    rw [hstep]
    unfold getScore
    have hnone : s.scores.find? (fun r => r.chatId == c && r.userId == uid) = none := by
      rw [List.find?_eq_none]
      intro r hrmem hr
      simp only [Bool.and_eq_true, beq_iff_eq] at hr
      exact hex ⟨r, hrmem, hr⟩
    show (match (s.scores ++ [⟨c, uid, 1⟩] : List ScoreRow).find?
          (fun r => r.chatId == c && r.userId == uid) with
      | some r => r.score
      | none => 0) = _
    rw [List.find?_append, hnone]
    simp

theorem quorum_eq_ceil (n : ℕ) : quorum n = max 1 ⌈(n : ℚ) / 2⌉₊ := by
  unfold quorum
  congr 1
  rcases Nat.even_or_odd n with ⟨k, hk⟩ | ⟨k, hk⟩
  · subst hk
    have h2 : ((k + k : ℕ) : ℚ) / 2 = (k : ℚ) := by push_cast; ring
    rw [h2, Nat.ceil_natCast]
    omega
  · subst hk
    have h2 : ((2 * k + 1 : ℕ) : ℚ) / 2 = (k : ℚ) + 1 / 2 := by push_cast; ring
    rw [h2]
    have hc : ⌈(k : ℚ) + 1 / 2⌉₊ = k + 1 := by
      rw [Nat.ceil_eq_iff (by omega)]
      have he : (k + 1 - 1 : ℕ) = k := by omega
      rw [he]
      constructor
      · norm_num
      · push_cast
        norm_num
    rw [hc]
    omega

theorem insert_poll_votes (now : Int) (s2 : DB) (c : Int) (tgt : User) (mid : Int) :
    (insert_poll now s2 c tgt mid).2.votes = s2.votes := rfl

theorem start_vote_votes (cfg : Config) (now : Int) (s : DB) (c : Int)
    (nom : Option User) (tgt : User) (mid : Int) :
    (start_vote_for_target cfg now s c nom tgt mid).2.votes = s.votes := by
  simp only [start_vote_for_target]
  split
  · exact preTouch_votes cfg s c nom tgt
  · split
    · split
      · exact preTouch_votes cfg s c nom tgt
      · rw [insert_poll_votes]; exact preTouch_votes cfg s c nom tgt
    · rw [insert_poll_votes]; exact preTouch_votes cfg s c nom tgt

theorem tallyAndResolve_votes (s : DB) (pid : Nat) (voter : Int) (ch : Choice)
    (c t : Int) :
    (tallyAndResolve s pid voter ch c t).2.votes = s.votes ++ [⟨pid, voter, ch⟩] := by
  simp only [tallyAndResolve]
  split
  · show (incrementScore _ _ _).votes = _
    rw [incrementScore_votes]
  · split
    · rfl
    · rfl

theorem on_vote_votes_cases (cfg : Config) (now : Int) (s : DB) (pid2 : Nat)
    (v2 : Int) (ch : Choice) :
    (on_vote cfg now s pid2 v2 ch).2.votes = s.votes
    ∨ ((on_vote cfg now s pid2 v2 ch).2.votes = s.votes ++ [⟨pid2, v2, ch⟩]
        ∧ ¬ ∃ v ∈ s.votes, v.pollId = pid2 ∧ v.voterUserId = v2) := by
  cases h2 : s.polls.find? (fun p => p.id == pid2) with
  | none => left; rw [on_vote_none_eq cfg now s pid2 v2 ch h2]
  | some poll2 =>
    by_cases hc : poll2.closed = true
    · left; rw [on_vote_closed_eq cfg now s pid2 v2 ch poll2 h2 hc]
    · have hco : poll2.closed = false := by simpa using hc
      by_cases ht : 0 < cfg.voteTimeout ∧ cfg.voteTimeout ≤ now - poll2.createdAt
      · left; rw [on_vote_timeout_eq cfg now s pid2 v2 ch poll2 h2 hco ht]
      · by_cases hdup : ∃ v ∈ s.votes, v.pollId = pid2 ∧ v.voterUserId = v2
        · left; rw [on_vote_dup_eq cfg now s pid2 v2 ch poll2 h2 hco ht hdup]
        · right
          rw [on_vote_accepted_eq cfg now s pid2 v2 ch poll2 h2 hco ht hdup]
          exact ⟨tallyAndResolve_votes s pid2 v2 ch poll2.chatId poll2.targetUserId, hdup⟩

theorem pairVoteCount_invariant (cfg : Config) (now : Int) (pid : Nat) (voter : Int)
    (s0 : DB) (op : Op) (h : pairVoteCount s0 pid voter ≤ 1) :
    pairVoteCount (applyOp cfg now s0 op) pid voter ≤ 1 := by
  cases op with
  | sweep =>
    simp only [applyOp, expire_polls_state]; exact h
  | message c sd rt =>
    simp only [applyOp]; unfold pairVoteCount; rw [on_message_votes]; exact h
  | chatMember c u =>
    simp only [applyOp]; unfold pairVoteCount; rw [touch_votes]; exact h
  | startVote c nom tgt mid =>
    simp only [applyOp]; unfold pairVoteCount; rw [start_vote_votes]; exact h
  | castVote pid2 v2 ch =>
    simp only [applyOp]
    rcases on_vote_votes_cases cfg now s0 pid2 v2 ch with heq | ⟨heq, hfresh⟩
    · unfold pairVoteCount; rw [heq]; exact h
    · unfold pairVoteCount
      rw [heq, List.filter_append]
      by_cases hkey : pid2 = pid ∧ v2 = voter
      · have hzero : s0.votes.filter
            (fun v => v.pollId == pid && v.voterUserId == voter) = [] := by
          rw [List.filter_eq_nil_iff]
          intro v hvmem hvp
          simp only [Bool.and_eq_true, beq_iff_eq] at hvp
          exact hfresh ⟨v, hvmem, by rw [hvp.1, hkey.1], by rw [hvp.2, hkey.2]⟩
        rw [hzero]
        obtain ⟨hk1, hk2⟩ := hkey
        subst hk1
        subst hk2
        simp
      · have hnew : ([(⟨pid2, v2, ch⟩ : VoteRow)].filter
            (fun v => v.pollId == pid && v.voterUserId == voter)) = [] := by
          rw [List.filter_eq_nil_iff]
          intro v hvmem hvp
          simp only [List.mem_singleton] at hvmem
          subst hvmem
          simp only [Bool.and_eq_true, beq_iff_eq] at hvp
          exact hkey ⟨hvp.1, hvp.2⟩
        rw [hnew, List.append_nil]
        exact h

/-- Vote rows after the accepted insert of bot.py:356-357. -/
def votesAfter (s : DB) (pid : Nat) (voter : Int) (ch : Choice) : List VoteRow :=
  s.votes ++ [⟨pid, voter, ch⟩]

/-- Plus tally recomputed from the vote rows after the insert (bot.py:363-367). -/
def plusAfter (s : DB) (pid : Nat) (voter : Int) (ch : Choice) : Nat :=
  countVotes (votesAfter s pid voter ch) pid .plus

/-- Minus tally recomputed from the vote rows after the insert (bot.py:363-367). -/
def minusAfter (s : DB) (pid : Nat) (voter : Int) (ch : Choice) : Nat :=
  countVotes (votesAfter s pid voter ch) pid .minus

theorem tallyAndResolve_pass (s : DB) (pid : Nat) (voter : Int) (ch : Choice) (c t : Int)
    (hp : quorum (non_bot_member_count s c) ≤ plusAfter s pid voter ch) :
    tallyAndResolve s pid voter ch c t
      = (.passed (plusAfter s pid voter ch) (minusAfter s pid voter ch)
           (quorum (non_bot_member_count s c)),
         incrementScore
           { s with votes := votesAfter s pid voter ch,
                    polls := closePolls s.polls pid } c t) := by
  simp only [tallyAndResolve]
  split_ifs with h1 h2
  · rfl
  · exact absurd hp h1
  · exact absurd hp h1

theorem tallyAndResolve_cancel (s : DB) (pid : Nat) (voter : Int) (ch : Choice) (c t : Int)
    (hp : ¬ quorum (non_bot_member_count s c) ≤ plusAfter s pid voter ch)
    (hm : quorum (non_bot_member_count s c) ≤ minusAfter s pid voter ch) :
    tallyAndResolve s pid voter ch c t
      = (.cancelled (plusAfter s pid voter ch) (minusAfter s pid voter ch)
           (quorum (non_bot_member_count s c)),
         { s with votes := votesAfter s pid voter ch,
                  polls := closePolls s.polls pid }) := by
  simp only [tallyAndResolve]
  split_ifs with h1 h2
  · exact absurd h1 hp
  · rfl
  · exact absurd hm h2

theorem tallyAndResolve_progress (s : DB) (pid : Nat) (voter : Int) (ch : Choice) (c t : Int)
    (hp : ¬ quorum (non_bot_member_count s c) ≤ plusAfter s pid voter ch)
    (hm : ¬ quorum (non_bot_member_count s c) ≤ minusAfter s pid voter ch) :
    tallyAndResolve s pid voter ch c t
      = (.inProgress (plusAfter s pid voter ch) (minusAfter s pid voter ch)
           (quorum (non_bot_member_count s c)),
         { s with votes := votesAfter s pid voter ch }) := by
  simp only [tallyAndResolve]
  split_ifs with h1 h2
  · exact absurd h1 hp
  · exact absurd h2 hm
  · rfl

theorem insert_poll_fst (now : Int) (s2 : DB) (c : Int) (tgt : User) (mid : Int) :
    (insert_poll now s2 c tgt mid).1
      = .started s2.nextPollId (quorum (non_bot_member_count s2 c)) := rfl

theorem counts_map_expire (polls : List PollRow) (pid : Nat) :
    (expirePollRow polls pid).map (fun p => (p.plusCount, p.minusCount))
      = polls.map (fun p => (p.plusCount, p.minusCount)) := by
  unfold expirePollRow
  rw [List.map_map]
  apply List.map_congr_left
  intro a _
  by_cases ha : a.id = pid <;> simp [ha]

/-! Concrete scenarios used by the counterexample and code-evaluation theorems. -/

/-- Configuration with the default cooldown and timeout and no seed mapping. -/
def plainCfg : Config := ⟨300, 600, []⟩

/-- Open poll of chat 10 against user 2, created at time 0, ballot message 5. -/
def sweepPoll : PollRow := ⟨1, 10, 5, 2, 0, 0, false, false, 0⟩

/-- Database holding only that open poll. -/
def sweepS : DB := ⟨[], [], [sweepPoll], [], 2⟩

/-- Seed mapping sending the handle alice to score 5. -/
def seedCfg : Config := ⟨300, 600, [("alice", 5)]⟩

/-- User whose handle matches the seed key case-insensitively. -/
def seedAlice : User := ⟨1, "Alice", "Alice", false⟩

/-- Unseeded second user. -/
def seedBob : User := ⟨2, "bob", "Bob", false⟩

/-- First observation of alice: a plain group message. -/
def seedS1 : DB := on_message seedCfg emptyDB 10 (some seedAlice) none

/-- Bob nominates alice; the poll opens with threshold 1 (two members). -/
def seedS2 : DB := (start_vote_for_target seedCfg 0 seedS1 10 (some seedBob) seedAlice 50).2

/-- Bob votes plus at time 10: the poll passes and alice's score becomes 6. -/
def seedS3 : DB := (on_vote seedCfg 10 seedS2 1 2 Choice.plus).2

/-- Alice is observed again by a later message. -/
def seedS4 : DB := on_message seedCfg seedS3 10 (some seedAlice) none

/-- Nominator of the cooldown trace. -/
def cdNom : User := ⟨2, "w", "w", false⟩

/-- Target of the cooldown trace. -/
def cdTgt : User := ⟨1, "u", "u", false⟩

/-- Poll against the target opened at time 0. -/
def cdS1 : DB := (start_vote_for_target plainCfg 0 emptyDB 10 (some cdNom) cdTgt 100).2

/-- Ballot press at time 100 that resolves that poll. -/
def cdVote : VoteResult × DB := on_vote plainCfg 100 cdS1 1 2 Choice.plus

/-- Renewed nomination of the same target at time 350. -/
def cdStart2 : StartResult × DB :=
  start_vote_for_target plainCfg 350 cdVote.2 10 (some cdNom) cdTgt 101

/-- Target of the already-open trace. -/
def aoTarget : User := ⟨1, "t", "T", false⟩

/-- Nominator of the already-open trace, unknown to the members table. -/
def aoNom : User := ⟨2, "n", "N", false⟩

/-- Open poll against the target. -/
def aoPoll : PollRow := ⟨1, 10, 5, 1, 0, 0, false, false, 0⟩

/-- Database with that open poll and no members. -/
def aoS : DB := ⟨[], [], [aoPoll], [], 2⟩

/-- Renewed nomination while the poll is open. -/
def aoStart : StartResult × DB :=
  start_vote_for_target plainCfg 50 aoS 10 (some aoNom) aoTarget 99

/-- C1: the claim says a sweeper tick transitions every aged open poll to
expired in durable storage.  Evaluating the code on an open poll of age 700
with vote_timeout 600: the sweep selects the poll and notifies for it, the
batch UPDATE would mark it closed and expired, but the connection is closed
without commit, so the committed database still holds the poll as open — the
sweep never durably expires anything. -/
theorem sweep_update_rolled_back :
    (0 < plainCfg.voteTimeout ∧ plainCfg.voteTimeout ≤ 700 - sweepPoll.createdAt
      ∧ sweepPoll.closed = false)
    ∧ (expire_polls plainCfg 700 sweepS).1 = [sweepPoll]
    ∧ (expire_polls plainCfg 700 sweepS).2 = sweepS
    ∧ (expireSweepUpdate plainCfg 700 sweepS).polls
        = [{ sweepPoll with closed := true, expired := true }] := by
  decide

/-- C2: the claim says the seed import overwrites a score only on the first
observation of the user, so a score earned from a passed poll is never reset.
Evaluating the code: alice is seeded to 5 on first observation, a passed poll
raises her score to 6, and her very next observed message resets the stored
score back to the seed value 5, because maybe_apply_init_score runs on every
observation with no first-time marker. -/
theorem seed_overwrites_on_reobservation :
    getScore seedS1 10 1 = 5
    ∧ (on_vote seedCfg 10 seedS2 1 2 Choice.plus).1 = VoteResult.passed 1 0 1
    ∧ getScore seedS3 10 1 = 6
    ∧ getScore seedS4 10 1 = 5 := by
  decide

/-- C3 counterexample: the claim says a nomination is rejected while the most
recent prior passed poll completed strictly less than target_cooldown seconds
ago.  Here the prior poll was created at time 0 and resolved as passed by a
vote at time 100; at time 350, only 250 < 300 seconds after completion, the
claim demands rejection, yet the code accepts and opens poll 2, because it
measures the cooldown from created_at rather than from completion. -/
theorem cooldown_not_from_completion_cex :
    cdVote.1 = VoteResult.passed 1 0 1
    ∧ ((350 : Int) - 100 < plainCfg.targetCooldown)
    ∧ cdStart2.1 = StartResult.started 2 1 := by
  decide

/-- C8: a CastVote on a poll still stored as open, when vote_timeout > 0 and
now − created_at ≥ vote_timeout, fails with TimedOut, and its only state
change is that the poll row's flags become closed and expired: every stored
plus_count/minus_count is untouched and no vote row is added for the caller
(the returned state equals the input state except for that one flag update). -/
theorem stale_vote_lazy_expiration (cfg : Config) (now : Int) (s : DB) (pid : Nat)
    (voter : Int) (choice : Choice) (row : PollRow)
    (hfind : s.polls.find? (fun p => p.id == pid) = some row)
    (hopen : row.closed = false)
    (ht : 0 < cfg.voteTimeout)
    (hage : cfg.voteTimeout ≤ now - row.createdAt) :
    on_vote cfg now s pid voter choice
      = (.timedOut, { s with polls := expirePollRow s.polls pid })
    ∧ (expirePollRow s.polls pid).find? (fun p => p.id == pid)
        = some { row with closed := true, expired := true }
    ∧ (expirePollRow s.polls pid).map (fun p => (p.plusCount, p.minusCount))
        = s.polls.map (fun p => (p.plusCount, p.minusCount)) := by
  refine ⟨on_vote_timeout_eq cfg now s pid voter choice row hfind hopen ⟨ht, hage⟩,
    ?_, counts_map_expire s.polls pid⟩
  unfold expirePollRow
  have hrow : row.id = pid := by simpa using List.find?_some hfind
  have hp : ∀ a : PollRow,
      ((fun p : PollRow => p.id == pid)
        (if a.id = pid then { a with closed := true, expired := true } else a))
        = ((fun p : PollRow => p.id == pid) a) := by
    intro a; by_cases ha : a.id = pid <;> simp [ha]
  rw [find?_map_of_pred _ _ hp, hfind]
  simp [hrow]

/-- Witness for stale_vote_lazy_expiration: the open poll of age 700 under
timeout 600, voted on by user 7. -/
theorem stale_vote_lazy_expiration_witness :
    on_vote plainCfg 700 sweepS 1 7 Choice.plus
      = (.timedOut, { sweepS with polls := expirePollRow sweepS.polls 1 })
    ∧ (expirePollRow sweepS.polls 1).find? (fun p => p.id == 1)
        = some { sweepPoll with closed := true, expired := true }
    ∧ (expirePollRow sweepS.polls 1).map (fun p => (p.plusCount, p.minusCount))
        = sweepS.polls.map (fun p => (p.plusCount, p.minusCount)) :=
  stale_vote_lazy_expiration plainCfg 700 sweepS 1 7 Choice.plus sweepPoll
    (by decide) (by decide) (by decide) (by decide)

/-- C6: at most one vote row ever exists per (poll_id, voter_user_id): a
second CastVote from a voter who already has a recorded vote, with any
choice, leaves the vote rows exactly as they were (the original vote stands),
leaves every stored plus_count/minus_count untouched, and never reaches a
tallied outcome; and every operation preserves the at-most-one-row-per-key
property of the vote table. -/
theorem duplicate_vote_rejected (cfg : Config) (now : Int) (s : DB) (pid : Nat)
    (voter : Int) (c0 c1 : Choice)
    (hv : VoteRow.mk pid voter c0 ∈ s.votes) :
    (on_vote cfg now s pid voter c1).2.votes = s.votes
    ∧ VoteRow.mk pid voter c0 ∈ (on_vote cfg now s pid voter c1).2.votes
    ∧ ((on_vote cfg now s pid voter c1).2.polls.map (fun p => (p.plusCount, p.minusCount))
        = s.polls.map (fun p => (p.plusCount, p.minusCount)))
    ∧ resultTally (on_vote cfg now s pid voter c1).1 = none
    ∧ (∀ (s0 : DB) (op : Op), pairVoteCount s0 pid voter ≤ 1 →
        pairVoteCount (applyOp cfg now s0 op) pid voter ≤ 1) := by
  have hdup : ∃ v ∈ s.votes, v.pollId = pid ∧ v.voterUserId = voter :=
    ⟨⟨pid, voter, c0⟩, hv, rfl, rfl⟩
  have hinv : ∀ (s0 : DB) (op : Op), pairVoteCount s0 pid voter ≤ 1 →
      pairVoteCount (applyOp cfg now s0 op) pid voter ≤ 1 :=
    fun s0 op h => pairVoteCount_invariant cfg now pid voter s0 op h
  cases h2 : s.polls.find? (fun p => p.id == pid) with
  | none =>
    rw [on_vote_none_eq cfg now s pid voter c1 h2]
    exact ⟨rfl, hv, rfl, rfl, hinv⟩
  | some poll2 =>
    by_cases hc : poll2.closed = true
    · rw [on_vote_closed_eq cfg now s pid voter c1 poll2 h2 hc]
      exact ⟨rfl, hv, rfl, rfl, hinv⟩
    · have hco : poll2.closed = false := by simpa using hc
      by_cases ht : 0 < cfg.voteTimeout ∧ cfg.voteTimeout ≤ now - poll2.createdAt
      · rw [on_vote_timeout_eq cfg now s pid voter c1 poll2 h2 hco ht]
        exact ⟨rfl, hv, counts_map_expire s.polls pid, rfl, hinv⟩
      · rw [on_vote_dup_eq cfg now s pid voter c1 poll2 h2 hco ht hdup]
        exact ⟨rfl, hv, rfl, rfl, hinv⟩

/-- Witness for duplicate_vote_rejected: voter 2 already voted plus on the
passed poll of the seed trace; a later minus press from the same voter is
rejected without any change. -/
theorem duplicate_vote_rejected_witness :
    (on_vote seedCfg 20 seedS3 1 2 Choice.minus).2.votes = seedS3.votes
    ∧ VoteRow.mk 1 2 Choice.plus ∈ (on_vote seedCfg 20 seedS3 1 2 Choice.minus).2.votes
    ∧ ((on_vote seedCfg 20 seedS3 1 2 Choice.minus).2.polls.map
          (fun p => (p.plusCount, p.minusCount))
        = seedS3.polls.map (fun p => (p.plusCount, p.minusCount)))
    ∧ resultTally (on_vote seedCfg 20 seedS3 1 2 Choice.minus).1 = none
    ∧ (∀ (s0 : DB) (op : Op), pairVoteCount s0 1 2 ≤ 1 →
        pairVoteCount (applyOp seedCfg 20 s0 op) 1 2 ≤ 1) :=
  duplicate_vote_rejected seedCfg 20 seedS3 1 2 Choice.plus Choice.minus (by decide)

/-- Open poll row of the seed trace as stored in seedS2. -/
def seedPollRow : PollRow := ⟨1, 10, 50, 1, 0, 0, false, false, 0⟩

/-- C7: after an accepted first vote on an open, non-timed-out poll, the
tally is recomputed from the vote rows and exactly one outcome applies, the
plus condition checked before the minus condition: plus reaching quorum
passes the poll and raises the target's score by exactly 1; otherwise minus
reaching quorum cancels it with no score change; otherwise the poll stays
open and nothing beyond the vote row changes.  The pass branch does not test
the minus count, so when both thresholds hold at once the poll passes. -/
theorem accepted_vote_resolution_plus_first (cfg : Config) (now : Int) (s : DB)
    (pid : Nat) (voter : Int) (choice : Choice) (row : PollRow)
    (hfind : s.polls.find? (fun p => p.id == pid) = some row)
    (hopen : row.closed = false)
    (hlive : ¬(0 < cfg.voteTimeout ∧ cfg.voteTimeout ≤ now - row.createdAt))
    (hfresh : ¬ ∃ v ∈ s.votes, v.pollId = pid ∧ v.voterUserId = voter) :
    (quorum (non_bot_member_count s row.chatId) ≤ plusAfter s pid voter choice →
        on_vote cfg now s pid voter choice
          = (.passed (plusAfter s pid voter choice) (minusAfter s pid voter choice)
               (quorum (non_bot_member_count s row.chatId)),
             incrementScore
               { s with votes := votesAfter s pid voter choice,
                        polls := closePolls s.polls pid }
               row.chatId row.targetUserId)
        ∧ getScore (on_vote cfg now s pid voter choice).2 row.chatId row.targetUserId
            = getScore s row.chatId row.targetUserId + 1)
    ∧ (plusAfter s pid voter choice < quorum (non_bot_member_count s row.chatId) →
       quorum (non_bot_member_count s row.chatId) ≤ minusAfter s pid voter choice →
        on_vote cfg now s pid voter choice
          = (.cancelled (plusAfter s pid voter choice) (minusAfter s pid voter choice)
               (quorum (non_bot_member_count s row.chatId)),
             { s with votes := votesAfter s pid voter choice,
                      polls := closePolls s.polls pid })
        ∧ (on_vote cfg now s pid voter choice).2.scores = s.scores)
    ∧ (plusAfter s pid voter choice < quorum (non_bot_member_count s row.chatId) →
       minusAfter s pid voter choice < quorum (non_bot_member_count s row.chatId) →
        on_vote cfg now s pid voter choice
          = (.inProgress (plusAfter s pid voter choice) (minusAfter s pid voter choice)
               (quorum (non_bot_member_count s row.chatId)),
             { s with votes := votesAfter s pid voter choice })
        ∧ (on_vote cfg now s pid voter choice).2.scores = s.scores
        ∧ (on_vote cfg now s pid voter choice).2.polls = s.polls) := by
  have hred := on_vote_accepted_eq cfg now s pid voter choice row hfind hopen hlive hfresh
  refine ⟨?_, ?_, ?_⟩
  · intro hp
    have heq := tallyAndResolve_pass s pid voter choice row.chatId row.targetUserId hp
    refine ⟨by rw [hred]; exact heq, ?_⟩
    rw [hred, heq]
    exact getScore_incrementScore
      { s with votes := votesAfter s pid voter choice, polls := closePolls s.polls pid }
      row.chatId row.targetUserId
  · intro hplt hm
    have heq := tallyAndResolve_cancel s pid voter choice row.chatId row.targetUserId
      (not_le.mpr hplt) hm
    refine ⟨by rw [hred]; exact heq, ?_⟩
    rw [hred, heq]
  · intro hplt hmlt
    have heq := tallyAndResolve_progress s pid voter choice row.chatId row.targetUserId
      (not_le.mpr hplt) (not_le.mpr hmlt)
    refine ⟨by rw [hred]; exact heq, ?_, ?_⟩
    · rw [hred, heq]
    · rw [hred, heq]

/-- Witness for accepted_vote_resolution_plus_first: with two members the
threshold is 1, so the single plus vote passes the poll and raises the
target's score from 5 to 6. -/
theorem accepted_vote_resolution_plus_first_witness :
    on_vote seedCfg 10 seedS2 1 2 Choice.plus
      = (.passed 1 0 1,
         incrementScore
           { seedS2 with votes := votesAfter seedS2 1 2 Choice.plus,
                         polls := closePolls seedS2.polls 1 } 10 1)
    ∧ getScore (on_vote seedCfg 10 seedS2 1 2 Choice.plus).2 10 1
        = getScore seedS2 10 1 + 1 :=
  (accepted_vote_resolution_plus_first seedCfg 10 seedS2 1 2 Choice.plus seedPollRow
    (by decide) (by decide) (by decide) (by decide)).1 (by decide)

/-- C10: the accepted-vote path imposes no eligibility condition on the
voter.  For every voter id whatsoever — the binder carries no membership,
non-bot or distinct-from-target hypothesis — a first vote on an open,
non-timed-out poll is appended to the vote rows, counted with weight exactly
one, and fed into the tallied outcome. -/
theorem vote_accepted_for_any_voter (cfg : Config) (now : Int) (s : DB)
    (pid : Nat) (voter : Int) (choice : Choice) (row : PollRow)
    (hfind : s.polls.find? (fun p => p.id == pid) = some row)
    (hopen : row.closed = false)
    (hlive : ¬(0 < cfg.voteTimeout ∧ cfg.voteTimeout ≤ now - row.createdAt))
    (hfresh : ¬ ∃ v ∈ s.votes, v.pollId = pid ∧ v.voterUserId = voter) :
    (on_vote cfg now s pid voter choice).2.votes = votesAfter s pid voter choice
    ∧ resultTally (on_vote cfg now s pid voter choice).1
        = some (plusAfter s pid voter choice, minusAfter s pid voter choice,
            quorum (non_bot_member_count s row.chatId))
    ∧ countVotes (votesAfter s pid voter choice) pid choice
        = countVotes s.votes pid choice + 1 := by
  have hred := on_vote_accepted_eq cfg now s pid voter choice row hfind hopen hlive hfresh
  refine ⟨?_, ?_, ?_⟩
  · rw [hred]
    exact tallyAndResolve_votes s pid voter choice row.chatId row.targetUserId
  · rw [hred]
    simp only [tallyAndResolve]
    split_ifs <;> rfl
  · unfold votesAfter countVotes
    rw [List.filter_append]
    simp

/-- Witness for vote_accepted_for_any_voter: the target of the open poll
votes on their own poll; the vote is recorded and counted like any other. -/
theorem vote_accepted_for_any_voter_witness :
    (on_vote seedCfg 10 seedS2 1 1 Choice.plus).2.votes = votesAfter seedS2 1 1 Choice.plus
    ∧ resultTally (on_vote seedCfg 10 seedS2 1 1 Choice.plus).1 = some (1, 0, 1)
    ∧ countVotes (votesAfter seedS2 1 1 Choice.plus) 1 Choice.plus
        = countVotes seedS2.votes 1 Choice.plus + 1 :=
  vote_accepted_for_any_voter seedCfg 10 seedS2 1 1 Choice.plus seedPollRow
    (by decide) (by decide) (by decide) (by decide)

/-- C4: the quorum threshold is max(1, ceil(N/2)) of the current non-bot
member count — values 1, 1, 2, 2, 4 at N = 1, 2, 3, 4, 7 — and it is
recomputed from the roster as it stands at each use: a tallied vote outcome
carries the quorum of the state at vote time, and an accepted nomination
carries the quorum of the state right after the observation touches at
creation time; no stored poll field ever holds a frozen threshold. -/
theorem quorum_recomputed_from_current_roster (cfg : Config) (now : Int) (s : DB)
    (pid : Nat) (voter : Int) (choice : Choice) (row : PollRow)
    (hfind : s.polls.find? (fun p => p.id == pid) = some row)
    (hopen : row.closed = false)
    (hlive : ¬(0 < cfg.voteTimeout ∧ cfg.voteTimeout ≤ now - row.createdAt))
    (hfresh : ¬ ∃ v ∈ s.votes, v.pollId = pid ∧ v.voterUserId = voter) :
    (quorum 1 = 1 ∧ quorum 2 = 1 ∧ quorum 3 = 2 ∧ quorum 4 = 2 ∧ quorum 7 = 4)
    ∧ (∀ n : ℕ, quorum n = max 1 ⌈(n : ℚ) / 2⌉₊)
    ∧ resultThreshold (on_vote cfg now s pid voter choice).1
        = some (quorum (non_bot_member_count s row.chatId))
    ∧ (∀ (s0 : DB) (now0 : Int) (c : Int) (nom : Option User) (tgt : User)
        (mid : Int) (pid0 th0 : Nat),
        (start_vote_for_target cfg now0 s0 c nom tgt mid).1 = .started pid0 th0 →
        th0 = quorum (non_bot_member_count (preTouch cfg s0 c nom tgt) c)) := by
  refine ⟨by decide, quorum_eq_ceil, ?_, ?_⟩
  · rw [on_vote_accepted_eq cfg now s pid voter choice row hfind hopen hlive hfresh]
    unfold resultThreshold
    simp only [tallyAndResolve]
    split_ifs <;> rfl
  · intro s0 now0 c nom tgt mid pid0 th0 h
    revert h
    simp only [start_vote_for_target]
    split
    · intro h; exact absurd h (by simp)
    · split
      · split
        · intro h; exact absurd h (by simp)
        · rw [insert_poll_fst]
          intro h
          exact ((StartResult.started.injEq _ _ _ _).mp h.symm).2
      · rw [insert_poll_fst]
        intro h
        exact ((StartResult.started.injEq _ _ _ _).mp h.symm).2

/-- Witness for quorum_recomputed_from_current_roster: the vote on the seed
trace poll is tallied against threshold 1, the quorum of its two-member
roster at vote time. -/
theorem quorum_recomputed_from_current_roster_witness :
    resultThreshold (on_vote seedCfg 10 seedS2 1 2 Choice.plus).1
      = some (quorum (non_bot_member_count seedS2 10)) :=
  (quorum_recomputed_from_current_roster seedCfg 10 seedS2 1 2 Choice.plus seedPollRow
    (by decide) (by decide) (by decide) (by decide)).2.2.1

/-- C9 counterexample: the claim says a nomination hitting an open poll is
rejected without any other state change.  Here the rejection happens, but the
rejected call has already upserted the nominator and the target into the
members table, so the stored state did change. -/
theorem already_open_rejection_still_writes_cex :
    aoStart.1 = StartResult.alreadyOpen
    ∧ aoStart.2.members ≠ aoS.members := by
  decide

/-- C9 (amended): when an open poll already targets the (chat, target) pair,
the nomination is rejected with AlreadyOpen regardless of the nominator and
creates no poll: the poll and vote tables are exactly as before, and the only
state change is the member/seed observation write for the nominator and the
target that the handler performs before any validation. -/
theorem already_open_rejection_no_poll_change (cfg : Config) (now : Int) (s : DB)
    (chatId : Int) (nom : Option User) (target : User) (mid : Int)
    (hOpen : ∃ p ∈ s.polls,
      p.chatId = chatId ∧ p.targetUserId = target.id ∧ p.closed = false) :
    start_vote_for_target cfg now s chatId nom target mid
      = (.alreadyOpen, preTouch cfg s chatId nom target)
    ∧ (start_vote_for_target cfg now s chatId nom target mid).2.polls = s.polls
    ∧ (start_vote_for_target cfg now s chatId nom target mid).2.votes = s.votes := by
  have hpolls := preTouch_polls cfg s chatId nom target
  have heq : start_vote_for_target cfg now s chatId nom target mid
      = (.alreadyOpen, preTouch cfg s chatId nom target) := by
    simp only [start_vote_for_target]
    rw [if_pos (by rw [hpolls]; exact hOpen)]
  refine ⟨heq, ?_, ?_⟩
  · rw [heq]; exact hpolls
  · rw [heq]; exact preTouch_votes cfg s chatId nom target

/-- Witness for already_open_rejection_no_poll_change: the open-poll scenario
with an unknown nominator. -/
theorem already_open_rejection_no_poll_change_witness :
    start_vote_for_target plainCfg 50 aoS 10 (some aoNom) aoTarget 99
      = (.alreadyOpen, preTouch plainCfg aoS 10 (some aoNom) aoTarget)
    ∧ (start_vote_for_target plainCfg 50 aoS 10 (some aoNom) aoTarget 99).2.polls
        = aoS.polls
    ∧ (start_vote_for_target plainCfg 50 aoS 10 (some aoNom) aoTarget 99).2.votes
        = aoS.votes :=
  already_open_rejection_no_poll_change plainCfg 50 aoS 10 (some aoNom) aoTarget 99
    (by decide)

/-- Stored row of the cooldown-trace poll after it passed: closed, not
expired, created at time 0 (the stored counts stay 0 because the tally
UPDATE is rolled back). -/
def cdClosedRow : PollRow := ⟨1, 10, 100, 1, 0, 0, true, false, 0⟩

/-- C3 (amended): the cooldown is measured from the prior poll's created_at,
not from its completion.  With no open poll for the pair and the most recent
prior poll q: if q is not expired and now − q.created_at < target_cooldown
the nomination is rejected with the remaining wait
target_cooldown − (now − created_at) and no poll is created; if q is not
expired and now − q.created_at ≥ target_cooldown it is accepted; and if q is
expired it is accepted immediately, with no cooldown at all. -/
theorem cooldown_measured_from_creation (cfg : Config) (now : Int) (s : DB)
    (chatId : Int) (nom : Option User) (target : User) (mid : Int) (q : PollRow)
    (hNoOpen : ¬ ∃ p ∈ s.polls,
      p.chatId = chatId ∧ p.targetUserId = target.id ∧ p.closed = false)
    (hLast : lastPollFor s chatId target.id = some q) :
    (q.expired = false → now - q.createdAt < cfg.targetCooldown →
        start_vote_for_target cfg now s chatId nom target mid
          = (.cooldown (cfg.targetCooldown - (now - q.createdAt)),
             preTouch cfg s chatId nom target))
    ∧ (q.expired = false → cfg.targetCooldown ≤ now - q.createdAt →
        (start_vote_for_target cfg now s chatId nom target mid).1
          = .started s.nextPollId
              (quorum (non_bot_member_count (preTouch cfg s chatId nom target) chatId)))
    ∧ (q.expired = true →
        (start_vote_for_target cfg now s chatId nom target mid).1
          = .started s.nextPollId
              (quorum (non_bot_member_count (preTouch cfg s chatId nom target) chatId))) := by
  have hpolls := preTouch_polls cfg s chatId nom target
  have hnext := preTouch_nextPollId cfg s chatId nom target
  have hlast2 : lastPollFor (preTouch cfg s chatId nom target) chatId target.id
      = some q := by
    rw [lastPollFor_congr _ s _ _ hpolls]; exact hLast
  have hno2 : ¬ ∃ p ∈ (preTouch cfg s chatId nom target).polls,
      p.chatId = chatId ∧ p.targetUserId = target.id ∧ p.closed = false := by
    rw [hpolls]; exact hNoOpen
  refine ⟨?_, ?_, ?_⟩
  · intro hexp hlt
    simp only [start_vote_for_target]
    rw [if_neg hno2, hlast2]
    dsimp only
    rw [if_pos ⟨hexp, hlt⟩]
  · intro hexp hge
    simp only [start_vote_for_target]
    rw [if_neg hno2, hlast2]
    dsimp only
    rw [if_neg (fun h => absurd h.2 (not_lt.mpr hge))]
    rw [insert_poll_fst, hnext]
  · intro hexp
    simp only [start_vote_for_target]
    rw [if_neg hno2, hlast2]
    dsimp only
    rw [if_neg (fun h => absurd h.1 (by simp [hexp]))]
    rw [insert_poll_fst, hnext]

theorem insert_poll_find (now : Int) (s2 : DB) (c : Int) (tgt : User) (mid : Int)
    (pid : Nat) (row : PollRow)
    (hfind : s2.polls.find? (fun p => p.id == pid) = some row)
    (hlt : pid < s2.nextPollId) :
    (insert_poll now s2 c tgt mid).2.polls.find? (fun p => p.id == pid) = some row := by
  simp only [insert_poll]
  rw [List.map_append, List.find?_append]
  have hne : pid ≠ s2.nextPollId := Nat.ne_of_lt hlt
  rw [find?_id_after_update s2.polls pid s2.nextPollId
    (fun p => { p with messageId := mid }) (fun q => rfl) row hfind hne]
  rfl

/-- C5: a poll's terminal state is immutable.  If a poll row is stored closed
(passed, cancelled or expired), then after any operation whatsoever — a
nomination, a ballot press on any poll, a sweeper tick, a message or a
member update — the row is looked up completely unchanged: same status
flags, same plus_count/minus_count, same everything.  In particular a vote
after a pass and a sweep after an expiry are no-ops on the row, and a poll
leaves the open state at most once along any sequence of operations. -/
theorem terminal_status_immutable (cfg : Config) (now : Int) (s : DB) (op : Op)
    (pid : Nat) (row : PollRow)
    (hWF : ∀ p ∈ s.polls, p.id < s.nextPollId)
    (hfind : s.polls.find? (fun p => p.id == pid) = some row)
    (hclosed : row.closed = true) :
    (applyOp cfg now s op).polls.find? (fun p => p.id == pid) = some row := by
  cases op with
  | sweep => simp only [applyOp, expire_polls_state]; exact hfind
  | message c sd rt => simp only [applyOp]; rw [on_message_polls]; exact hfind
  | chatMember c u => simp only [applyOp]; rw [touch_polls]; exact hfind
  | startVote c nom tgt mid =>
    simp only [applyOp]
    have hpolls := preTouch_polls cfg s c nom tgt
    have hnext := preTouch_nextPollId cfg s c nom tgt
    have hfind2 : (preTouch cfg s c nom tgt).polls.find? (fun p => p.id == pid)
        = some row := by rw [hpolls]; exact hfind
    have hlt : pid < (preTouch cfg s c nom tgt).nextPollId := by
      rw [hnext]
      have hrowid : row.id = pid := by simpa using List.find?_some hfind
      have hmem := List.mem_of_find?_eq_some hfind
      have := hWF row hmem
      omega
    simp only [start_vote_for_target]
    split
    · exact hfind2
    · split
      · split
        · exact hfind2
        · exact insert_poll_find now (preTouch cfg s c nom tgt) c tgt mid pid row
            hfind2 hlt
      · exact insert_poll_find now (preTouch cfg s c nom tgt) c tgt mid pid row
          hfind2 hlt
  | castVote pid2 voter ch =>
    simp only [applyOp]
    cases h2 : s.polls.find? (fun p => p.id == pid2) with
    | none => rw [on_vote_none_eq cfg now s pid2 voter ch h2]; exact hfind
    | some poll2 =>
      by_cases hc : poll2.closed = true
      · rw [on_vote_closed_eq cfg now s pid2 voter ch poll2 h2 hc]; exact hfind
      · have hco : poll2.closed = false := by simpa using hc
        have hne : pid ≠ pid2 := by
          intro he
          subst he
          rw [hfind] at h2
          injection h2 with h3
          rw [h3] at hclosed
          rw [hclosed] at hco
          simp at hco
        by_cases ht : 0 < cfg.voteTimeout ∧ cfg.voteTimeout ≤ now - poll2.createdAt
        · rw [on_vote_timeout_eq cfg now s pid2 voter ch poll2 h2 hco ht]
          show (expirePollRow s.polls pid2).find? (fun p => p.id == pid) = some row
          unfold expirePollRow
          exact find?_id_after_update s.polls pid pid2
            (fun p => { p with closed := true, expired := true }) (fun q => rfl)
            row hfind hne
        · by_cases hdup : ∃ v ∈ s.votes, v.pollId = pid2 ∧ v.voterUserId = voter
          · rw [on_vote_dup_eq cfg now s pid2 voter ch poll2 h2 hco ht hdup]
            exact hfind
          · rw [on_vote_accepted_eq cfg now s pid2 voter ch poll2 h2 hco ht hdup]
            simp only [tallyAndResolve]
            split_ifs with hp hm
            · show ((incrementScore _ _ _).polls).find? (fun p => p.id == pid) = some row
              rw [incrementScore_polls]
              show (closePolls s.polls pid2).find? (fun p => p.id == pid) = some row
              unfold closePolls
              exact find?_id_after_update s.polls pid pid2
                (fun p => { p with closed := true }) (fun q => rfl) row hfind hne
            · show (closePolls s.polls pid2).find? (fun p => p.id == pid) = some row
              unfold closePolls
              exact find?_id_after_update s.polls pid pid2
                (fun p => { p with closed := true }) (fun q => rfl) row hfind hne
            · exact hfind

/-- Closed poll row with recorded counts, used as the terminal-state witness. -/
def termPoll : PollRow := ⟨1, 10, 5, 2, 3, 1, true, false, 0⟩

/-- Database holding the closed poll and one of its vote rows. -/
def termS : DB := ⟨[], [], [termPoll], [⟨1, 4, Choice.plus⟩], 2⟩

/-- Witness for terminal_status_immutable: a further ballot press on the
resolved poll leaves its row byte-for-byte unchanged. -/
theorem terminal_status_immutable_witness :
    (applyOp plainCfg 1000 termS (Op.castVote 1 9 Choice.plus)).polls.find?
        (fun p => p.id == 1) = some termPoll :=
  terminal_status_immutable plainCfg 1000 termS (Op.castVote 1 9 Choice.plus) 1 termPoll
    (by decide) (by decide) (by decide)

/-- Witness for cooldown_measured_from_creation: the passed poll of the
cooldown trace was created at 0; a renewed nomination at 250 is rejected with
50 seconds remaining, and one at 350 is accepted as poll 2. -/
theorem cooldown_measured_from_creation_witness :
    (start_vote_for_target plainCfg 250 cdVote.2 10 (some cdNom) cdTgt 102
        = (.cooldown 50, preTouch plainCfg cdVote.2 10 (some cdNom) cdTgt))
    ∧ (start_vote_for_target plainCfg 350 cdVote.2 10 (some cdNom) cdTgt 101).1
        = .started 2 1 :=
  ⟨(cooldown_measured_from_creation plainCfg 250 cdVote.2 10 (some cdNom) cdTgt 102
      cdClosedRow (by decide) (by decide)).1 (by decide) (by decide),
   (cooldown_measured_from_creation plainCfg 350 cdVote.2 10 (some cdNom) cdTgt 101
      cdClosedRow (by decide) (by decide)).2.1 (by decide) (by decide)⟩

end GryazBot
